import Mathlib

/-!
Verification of the SpartanEngine image import pipeline
(`src/Runtime/Resource/Import/ImageImporter.cpp`) against its
natural-language specification.

The C++ code is shallowly embedded below.  FreeImage bitmaps (`FIBITMAP*`)
are modelled by the `Bitmap` structure: the decoding library is an opaque
collaborator, so a bitmap is characterised by the attributes the importer
queries (`FreeImage_GetWidth`, `FreeImage_GetHeight`, `FreeImage_GetBPP`,
`FreeImage_GetImageType`, `FreeImage_IsTransparent`, `FreeImage_GetLine`)
together with `byteAt row off`, the byte returned by reading offset `off`
of `FreeImage_GetScanLine(bm, row)`.  Machine `unsigned int`s are modelled
as `Nat` with the 2^32 wrap made explicit where the code relies on it
(the `bytespp == -1` sentinel in `FIBTIMAPToRGBA`).
-/

namespace Directus

/-- `FREE_IMAGE_TYPE`: only `FIT_BITMAP` (standard raster) is distinguished
by the importer; the other constructors stand for the non-standard types
(`FIT_UINT16`, `FIT_RGBF`, ... ). -/
inductive FreeImageType where
  | FIT_BITMAP : FreeImageType
  | FIT_UINT16 : FreeImageType
  | FIT_RGBF : FreeImageType
  | FIT_UNKNOWN : FreeImageType
deriving DecidableEq, Repr

/-- Model of a `FIBITMAP` value: the attributes the importer reads through
the FreeImage accessors.  `scanlineBytes` is `FreeImage_GetLine` (the raw
scanline byte length, possibly larger than `width * 4` due to padding) and
`byteAt y off` is byte `off` of scanline `y`. -/
structure Bitmap where
  width : Nat
  height : Nat
  bpp : Nat
  imageType : FreeImageType
  transparent : Bool
  scanlineBytes : Nat
  byteAt : Nat → Nat → Nat

/-- `FI_RGBA_RED` on a little-endian host (BGRA byte layout). -/
def FI_RGBA_RED : Nat := 2
/-- `FI_RGBA_GREEN` on a little-endian host. -/
def FI_RGBA_GREEN : Nat := 1
/-- `FI_RGBA_BLUE` on a little-endian host. -/
def FI_RGBA_BLUE : Nat := 0
/-- `FI_RGBA_ALPHA` on a little-endian host. -/
def FI_RGBA_ALPHA : Nat := 3

/-- `UINT_MAX`, the value the `unsigned int bytespp` sentinel `-1` wraps to. -/
def UINT_MAX : Nat := 2 ^ 32 - 1

/-- The four values of `LoadState` (`TextureInfo.loadState`). -/
inductive LoadState where
  | NotStarted : LoadState
  | Loading : LoadState
  | Completed : LoadState
  | Failed : LoadState
deriving DecidableEq, Repr

/-- `TextureInfo`: the caller-owned record `Load` populates in place.
Pixel bytes are `Nat`s (each a value of an `unsigned char`). -/
structure TextureInfo where
  width : Nat
  height : Nat
  bpp : Nat
  channels : Nat
  transparentFlag : Bool
  grayscaleFlag : Bool
  usingMipmaps : Bool
  loadState : LoadState
  rgba : List Nat
  rgba_mimaps : List (List Nat)

/-- `ImageImporter::ComputeChannelCount` (ImageImporter.cpp:195-211):
`0` unless the image type is `FIT_BITMAP`, then `8→1`, `24→3`, `32→4`,
anything else `0`. -/
def ComputeChannelCount (fibtimap : Bitmap) (bpp : Nat) : Nat :=
  if fibtimap.imageType ≠ FreeImageType.FIT_BITMAP then 0
  else if bpp = 8 then 1
  else if bpp = 24 then 3
  else if bpp = 32 then 4
  else 0

/-- The `bytespp` computation of `ImageImporter::FIBTIMAPToRGBA`
(ImageImporter.cpp:218): `width != 0 ? FreeImage_GetLine(..)/width : -1`
stored into an `unsigned int`, so the `-1` sentinel is `UINT_MAX`. -/
def bytesppOf (fibtimap : Bitmap) : Nat :=
  if fibtimap.width ≠ 0 then fibtimap.scanlineBytes / fibtimap.width else UINT_MAX

/-- The four bytes `R,G,B,A` that the inner loop of `FIBTIMAPToRGBA`
emits for pixel `(x, y)`: `bits` starts at the scanline and advances by
`bytespp` per pixel, and the code reads `bits[FI_RGBA_RED]` etc. -/
def pixelRGBA (fibtimap : Bitmap) (bytespp y x : Nat) : List Nat :=
  [ fibtimap.byteAt y (x * bytespp + FI_RGBA_RED)
  , fibtimap.byteAt y (x * bytespp + FI_RGBA_GREEN)
  , fibtimap.byteAt y (x * bytespp + FI_RGBA_BLUE)
  , fibtimap.byteAt y (x * bytespp + FI_RGBA_ALPHA) ]

/-- The bytes the nested `for` loops of `FIBTIMAPToRGBA`
(ImageImporter.cpp:223-236) append: row by row (`y` outer), pixel by
pixel (`x` inner), the four bytes `R,G,B,A`.  The loops only
`emplace_back`, so they are rendered as `flatMap` over `List.range`,
which produces the same append order. -/
def extractedRGBA (fibtimap : Bitmap) : List Nat :=
  (List.range fibtimap.height).flatMap (fun y =>
    (List.range fibtimap.width).flatMap (fun x =>
      pixelRGBA fibtimap (bytesppOf fibtimap) y x))

/-- `ImageImporter::FIBTIMAPToRGBA` (ImageImporter.cpp:213-239): returns
`false` (emitting nothing) when `bytespp` is the `-1` sentinel, otherwise
appends the extracted bytes to `rgba` (passed by pointer, only ever
appended to) and returns `true`. -/
def FIBTIMAPToRGBA (fibtimap : Bitmap) (rgba : List Nat) : Bool × List Nat :=
  if bytesppOf fibtimap = UINT_MAX then (false, rgba)
  else (true, rgba ++ extractedRGBA fibtimap)

/-- `ImageImporter::GrayscaleCheck` (ImageImporter.cpp:323-345): counts the
pixels with `red == green && red == blue` and compares the count with
`width * height`.  `dataRGBA[..]` is unchecked `vector` access; out-of-range
reads (excluded by the claims' length hypotheses) are modelled as `0`. -/
def GrayscaleCheck (dataRGBA : List Nat) (width height : Nat) : Bool :=
  let channels := 4
  let totalPixels := width * height
  let grayPixels :=
    ((List.range height).flatMap (fun i => (List.range width).map (fun j => (i, j)))).countP
      (fun p =>
        let red := dataRGBA.getD ((p.1 * width + p.2) * channels + 0) 0
        let green := dataRGBA.getD ((p.1 * width + p.2) * channels + 1) 0
        let blue := dataRGBA.getD ((p.1 * width + p.2) * channels + 2) 0
        red = green ∧ red = blue)
  grayPixels = totalPixels

/-- The `while (width > 1 && height > 1)` loop of
`ImageImporter::GenerateMipmapsFromFIBITMAP` (ImageImporter.cpp:264-270):
the list of `(width, height)` descriptors pushed into `scalingJobs`,
in order.  The loop body halves both dimensions (floored at 1) and
records the result; note the conjunction in the guard: the loop exits as
soon as either dimension reaches 1. -/
def mipJobDims (width height : Nat) : List (Nat × Nat) :=
  if width > 1 ∧ height > 1 then
    let width' := max (width / 2) 1
    let height' := max (height / 2) 1
    (width', height') :: mipJobDims width' height'
  else []
termination_by width
decreasing_by
  simp only [gt_iff_lt, Nat.max_def]
  split <;> omega

/-- The full chain of level dimensions produced by the mip generator:
level 0 is the base (full size), followed by the `scalingJobs` targets. -/
def mipChainDims (width height : Nat) : List (Nat × Nat) :=
  (width, height) :: mipJobDims width height

/-- `FREE_IMAGE_FORMAT`: `FIF_UNKNOWN` is `-1`; the known formats are
non-negative plugin ids. -/
inductive FIF where
  | FIF_UNKNOWN : FIF
  | fmt (id : Nat) : FIF
deriving DecidableEq, Repr

/-- The environment of one `Load` call: the answers the opaque
collaborators (filesystem, FreeImage, the engine-texture deserializer)
give for the fixed `filePath` argument.  `decodedBitmap` is the bitmap
produced by `FreeImage_Load` followed by the in-place
`FreeImage_FlipVertical` (the flip mutates the same handle and no claim
observes row order, so decode-and-flip is one opaque step).
`rescale src w h` is `FreeImage_Rescale(src, w, h, FILTER_LANCZOS3)`;
a failed rescale (NULL result) is a bitmap whose accessors all return 0,
hence `width = 0`.  `convertTo32 src` is `FreeImage_ConvertTo32Bits`. -/
structure LoadEnv where
  pathEmptyOrNotAssigned : Bool
  fileExists : Bool
  isEngineTextureFile : Bool
  deserializeOk : Bool
  fileTypeFromContent : FIF
  fifFromFilename : FIF
  supportsReadingId : Nat → Bool
  decodedBitmap : Bitmap
  rescale : Bitmap → Nat → Nat → Bitmap
  convertTo32 : Bitmap → Bitmap

/-- `FreeImage_FIFSupportsReading`: `FIF_UNKNOWN` (`-1`) is outside the
plugin table and always unreadable; a known id is answered by the
environment. -/
def FIFSupportsReading (env : LoadEnv) : FIF → Bool
  | FIF.FIF_UNKNOWN => false
  | FIF.fmt id => env.supportsReadingId id

/-- `ImageImporter::ValidateFilePath` (ImageImporter.cpp:167-182):
reject an empty/`NOT_ASSIGNED` path, then a nonexistent file. -/
def ValidateFilePath (env : LoadEnv) : Bool :=
  if env.pathEmptyOrNotAssigned then false
  else if ¬ env.fileExists then false
  else true

/-- `ImageImporter::LoadEngineTexture` (ImageImporter.cpp:184-193):
forwards the opaque `TextureInfo::Deserialize` result. -/
def LoadEngineTexture (env : LoadEnv) : Bool :=
  env.deserializeOk

/-- Identity of the transient `FIBITMAP*` handles inside `Load`, so that
release (`FreeImage_Unload`) can be audited: `bitmapOriginal` is handle 0,
a fresh handle returned by `FreeImage_Rescale` is 1, a fresh handle
returned by `FreeImage_ConvertTo32Bits` is 2.  When the code skips a
step the corresponding C++ pointer aliases the previous handle. -/
def hOriginal : Nat := 0
/-- Handle id of a fresh `FreeImage_Rescale` result in `Load`. -/
def hScaled : Nat := 1
/-- Handle id of a fresh `FreeImage_ConvertTo32Bits` result in `Load`. -/
def hConverted : Nat := 2

/-- Everything one `Load` call produces, beyond the boolean return:
the final `TextureInfo`, the ordered list of `loadState` assignments,
the ordered list of `FreeImage_Unload`ed handle ids, the list of handle
ids allocated by the decoder during the call, the id the final `bitmap32`
pointer holds, whether `FreeImage_Rescale` ran in `Load` itself, and the
`(w, h)` sizes of the mip levels whose failure was logged. -/
structure LoadResult where
  ret : Bool
  tex : TextureInfo
  stateTrace : List LoadState
  unloads : List Nat
  allocated : List Nat
  bitmap32Id : Nat
  didScale : Bool
  mipFailLogs : List (Nat × Nat)

/-- `ImageImporter::RescaleFIBITMAP` (ImageImporter.cpp:309-321):
rescale with `FILTER_LANCZOS3`, extract RGBA into the caller's vector,
unload the scaled bitmap, and forward the extraction result. -/
def RescaleFIBITMAP (env : LoadEnv) (fibtimap : Bitmap) (width height : Nat)
    (rgba : List Nat) : Bool × List Nat :=
  let scaled := env.rescale fibtimap width height
  FIBTIMAPToRGBA scaled rgba

/-- `ImageImporter::GenerateMipmapsFromFIBITMAP` (ImageImporter.cpp:241-307).
The base level is moved into `rgba_mimaps` (leaving `rgba` empty, the
state of a moved-from vector), the `while` loop records the descending
job sizes, each job rescales the original bitmap and extracts its RGBA
into the job's own `data` (initially empty), a failed job logs its size
and leaves `data` empty, and after the join every job's buffer is
appended in order.  The fan-out is modelled sequentially: each job writes
only its own slot and the polling join bars the copy loop until every job
is complete, so the final contents are those of this sequential run.
Returns the new `rgba_mimaps`, the moved-from `rgba`, and the logged
failures. -/
def GenerateMipmapsFromFIBITMAP (env : LoadEnv) (originalFIBITMAP : Bitmap)
    (texInfo : TextureInfo) : TextureInfo × List (Nat × Nat) :=
  let mimaps0 := texInfo.rgba_mimaps ++ [texInfo.rgba]
  let jobs := mipJobDims texInfo.width texInfo.height
  let results := jobs.map (fun job =>
    RescaleFIBITMAP env originalFIBITMAP job.1 job.2 [])
  let failLogs := (jobs.zip results).filterMap (fun jr =>
    if jr.2.1 = false then some jr.1 else none)
  ({ texInfo with
      rgba := []
      rgba_mimaps := mimaps0 ++ results.map Prod.snd }, failLogs)

/-- The `scale` condition of `Load` (ImageImporter.cpp:119-121):
`userDefineDimensions && dimensionMismatch`, with the requested
dimensions read from the caller's `TextureInfo` and the native ones from
the decoded bitmap.  Note the conjunction in `dimensionMismatch`: BOTH
dimensions must differ from the request. -/
def loadScaleCond (env : LoadEnv) (width height : Nat) : Prop :=
  (width ≠ 0 ∧ height ≠ 0) ∧
  (env.decodedBitmap.width ≠ width ∧ env.decodedBitmap.height ≠ height)

instance (env : LoadEnv) (width height : Nat) : Decidable (loadScaleCond env width height) := by
  unfold loadScaleCond
  infer_instance

/-- The value of `bitmapScaled` in `Load` (ImageImporter.cpp:122), as a
function of the caller-requested dimensions. -/
def bitmapScaledOf (env : LoadEnv) (width height : Nat) : Bitmap :=
  if loadScaleCond env width height
  then env.rescale env.decodedBitmap width height
  else env.decodedBitmap

/-- The value of `bitmap32` in `Load` (ImageImporter.cpp:126): converted
iff `FreeImage_GetBPP(bitmapOriginal) != 32`. -/
def bitmap32Of (env : LoadEnv) (width height : Nat) : Bitmap :=
  if env.decodedBitmap.bpp ≠ 32 then env.convertTo32 (bitmapScaledOf env width height)
  else bitmapScaledOf env width height

/-- `ImageImporter::Load` (ImageImporter.cpp:59-165), embedded line by
line.  `stateTrace` records every assignment to `texInfo.loadState` in
program order; `unloads` records every `FreeImage_Unload` argument;
`allocated` the handles the decoder handed out.  Bitmap values and handle
ids are threaded side by side: `bitmapScaled` aliases `bitmapOriginal`
when no rescale happens, `bitmap32` aliases `bitmapScaled` when the bpp
is already 32. -/
def Load (env : LoadEnv) (texInfo : TextureInfo) : LoadResult :=
  -- texInfo.loadState = Loading;
  let texInfo := { texInfo with loadState := LoadState.Loading }
  let trace := [LoadState.Loading]
  if ¬ ValidateFilePath env then
    { ret := false
      tex := { texInfo with loadState := LoadState.Failed }
      stateTrace := trace ++ [LoadState.Failed]
      unloads := [], allocated := [], bitmap32Id := 0
      didScale := false, mipFailLogs := [] }
  else if env.isEngineTextureFile then
    if ¬ LoadEngineTexture env then
      { ret := false
        tex := { texInfo with loadState := LoadState.Failed }
        stateTrace := trace ++ [LoadState.Failed]
        unloads := [], allocated := [], bitmap32Id := 0
        didScale := false, mipFailLogs := [] }
    else
      { ret := true
        tex := { texInfo with loadState := LoadState.Completed }
        stateTrace := trace ++ [LoadState.Completed]
        unloads := [], allocated := [], bitmap32Id := 0
        didScale := false, mipFailLogs := [] }
  else
    -- FREE_IMAGE_FORMAT format = FreeImage_GetFileType(filePath.c_str(), 0);
    let format := env.fileTypeFromContent
    -- the FIF_UNKNOWN fallback branch (lines 87-102)
    let formatOrErr : Except Unit FIF :=
      if format = FIF.FIF_UNKNOWN then
        let format := env.fifFromFilename
        if ¬ FIFSupportsReading env format then Except.error ()
        else Except.ok format
      else Except.ok format
    match formatOrErr with
    | Except.error _ =>
      { ret := false
        tex := { texInfo with loadState := LoadState.Failed }
        stateTrace := trace ++ [LoadState.Failed]
        unloads := [], allocated := [], bitmap32Id := 0
        didScale := false, mipFailLogs := [] }
    | Except.ok format =>
      -- if (format == -1 || format == FIF_UNKNOWN)  (FIF_UNKNOWN is -1)
      if format = FIF.FIF_UNKNOWN then
        { ret := false
          tex := { texInfo with loadState := LoadState.Failed }
          stateTrace := trace ++ [LoadState.Failed]
          unloads := [], allocated := [], bitmap32Id := 0
          didScale := false, mipFailLogs := [] }
      else
        -- FIBITMAP* bitmapOriginal = FreeImage_Load(...); FreeImage_FlipVertical(...);
        let bitmapOriginal := env.decodedBitmap
        -- bool scale = userDefineDimensions && dimensionMismatch;
        let scale := loadScaleCond env texInfo.width texInfo.height
        let scaledId := if scale then hScaled else hOriginal
        -- texInfo.bpp = FreeImage_GetBPP(bitmapOriginal);
        let texInfo := { texInfo with bpp := bitmapOriginal.bpp }
        let converted := texInfo.bpp ≠ 32
        let bitmap32 := bitmap32Of env texInfo.width texInfo.height
        let bitmap32Id := if converted then hConverted else scaledId
        -- texInfo.bpp = 32; // this is a hack, have to handle more elegant
        let texInfo := { texInfo with bpp := 32 }
        let texInfo := { texInfo with
          transparentFlag := bitmap32.transparent
          width := bitmap32.width
          height := bitmap32.height
          channels := ComputeChannelCount bitmap32 texInfo.bpp }
        -- FIBTIMAPToRGBA(bitmap32, &texInfo.rgba);  (return value ignored)
        let texInfo := { texInfo with rgba := (FIBTIMAPToRGBA bitmap32 texInfo.rgba).2 }
        let texInfo := { texInfo with
          grayscaleFlag := GrayscaleCheck texInfo.rgba texInfo.width texInfo.height }
        let mipped :=
          if texInfo.usingMipmaps then GenerateMipmapsFromFIBITMAP env bitmap32 texInfo
          else (texInfo, [])
        let texInfo := mipped.1
        -- FreeImage_Unload(bitmap32);
        -- if (texInfo.bpp != 32) FreeImage_Unload(bitmapScaled);
        -- if (scale) FreeImage_Unload(bitmapOriginal);
        let unloads := [bitmap32Id]
          ++ (if texInfo.bpp ≠ 32 then [scaledId] else [])
          ++ (if scale then [hOriginal] else [])
        { ret := true
          tex := { texInfo with loadState := LoadState.Completed }
          stateTrace := trace ++ [LoadState.Completed]
          unloads := unloads
          allocated := [hOriginal]
            ++ (if scale then [hScaled] else [])
            ++ (if converted then [hConverted] else [])
          bitmap32Id := bitmap32Id
          didScale := decide scale
          mipFailLogs := mipped.2 }

/-- The scaling jobs of the mip generator as invoked by `Load`: the
`while` loop starts from `texInfo.width/height`, which at that point hold
the dimensions of `bitmap32`. -/
def loadJobs (env : LoadEnv) (tex : TextureInfo) : List (Nat × Nat) :=
  mipJobDims (bitmap32Of env tex.width tex.height).width
    (bitmap32Of env tex.width tex.height).height

/-- The bitmap a mip-generation job works on: `FreeImage_Rescale` of the
normalized `bitmap32` to the job's target size. -/
def loadMipBitmap (env : LoadEnv) (tex : TextureInfo) (job : Nat × Nat) : Bitmap :=
  env.rescale (bitmap32Of env tex.width tex.height) job.1 job.2

/-! ### Concrete fixtures (used by counterexamples and witnesses) -/

/-- A well-formed 32-bpp standard-raster bitmap of the given size, with a
tight scanline (no padding) and position-dependent pixel bytes. -/
def demoBitmap32 (w h : Nat) : Bitmap :=
  { width := w, height := h, bpp := 32, imageType := FreeImageType.FIT_BITMAP
    transparent := false, scanlineBytes := 4 * w
    byteAt := fun y off => (y + off) % 256 }

/-- A 2×2 bitmap decoded at 24 bpp (tight scanline of 6 bytes, padded to 8). -/
def demoBitmap24 : Bitmap :=
  { width := 2, height := 2, bpp := 24, imageType := FreeImageType.FIT_BITMAP
    transparent := false, scanlineBytes := 8, byteAt := fun _ _ => 9 }

/-- A 2×2 bitmap decoded at 8 bpp. -/
def demoBitmap8 : Bitmap :=
  { width := 2, height := 2, bpp := 8, imageType := FreeImageType.FIT_BITMAP
    transparent := false, scanlineBytes := 2, byteAt := fun _ _ => 5 }

/-- The NULL result of a failed `FreeImage_Rescale`: every accessor
returns 0 / unknown. -/
def nullBitmap : Bitmap :=
  { width := 0, height := 0, bpp := 0, imageType := FreeImageType.FIT_UNKNOWN
    transparent := false, scanlineBytes := 0, byteAt := fun _ _ => 0 }

/-- Baseline environment: an existing, non-engine file whose content
probe succeeds, every format readable, decoding to a 2×2 32-bpp bitmap;
rescaling yields a well-formed bitmap of the requested size and
conversion to 32 bpp keeps the other attributes. -/
def demoEnv : LoadEnv :=
  { pathEmptyOrNotAssigned := false, fileExists := true
    isEngineTextureFile := false, deserializeOk := false
    fileTypeFromContent := FIF.fmt 3, fifFromFilename := FIF.FIF_UNKNOWN
    supportsReadingId := fun _ => true, decodedBitmap := demoBitmap32 2 2
    rescale := fun _ w h => demoBitmap32 w h
    convertTo32 := fun bm => { bm with bpp := 32 } }

/-- Baseline caller-side `TextureInfo`: native size requested, no
mipmaps, empty buffers. -/
def demoTex : TextureInfo :=
  { width := 0, height := 0, bpp := 0, channels := 0
    transparentFlag := false, grayscaleFlag := false, usingMipmaps := false
    loadState := LoadState.NotStarted, rgba := [], rgba_mimaps := [] }

/-- Environment whose file decodes to a 24-bpp bitmap (so `Load` must
convert it to 32 bpp). -/
def env24 : LoadEnv := { demoEnv with decodedBitmap := demoBitmap24 }

/-- Environment whose file decodes to an 8-bpp bitmap. -/
def env8 : LoadEnv := { demoEnv with decodedBitmap := demoBitmap8 }

/-- Environment where the content probe resolves a format that does not
support reading. -/
def envNoRead : LoadEnv :=
  { demoEnv with fileTypeFromContent := FIF.fmt 7, supportsReadingId := fun _ => false }

/-- Environment for a mipmapped load of a 4×4 source where rescaling to
width 2 fails (NULL bitmap) and every other rescale succeeds. -/
def envMip : LoadEnv :=
  { demoEnv with decodedBitmap := demoBitmap32 4 4
                 rescale := fun _ w h => if w = 2 then nullBitmap else demoBitmap32 w h }

/-- Caller-side record requesting mipmaps (native size). -/
def texMip : TextureInfo := { demoTex with usingMipmaps := true }

/-! ### Helper lemmas -/

/-- Length of the byte list `FIBTIMAPToRGBA`'s loops emit:
4 bytes per pixel. -/
theorem extractedRGBA_length (bm : Bitmap) :
    (extractedRGBA bm).length = bm.width * bm.height * 4 := by
  simp [extractedRGBA, pixelRGBA, List.length_flatMap, Function.comp_def]
  ring

/-- Unfolding equation of the `while` loop `mipJobDims`. -/
theorem mipJobDims_eq (w h : Nat) :
    mipJobDims w h = if w > 1 ∧ h > 1 then
      (max (w / 2) 1, max (h / 2) 1) :: mipJobDims (max (w / 2) 1) (max (h / 2) 1)
    else [] := by
  rw [mipJobDims]

/-- Consecutive mip levels obey the halving law. -/
theorem mipChain_chain' : ∀ w h : Nat,
    List.Chain' (fun p q => q = (max (p.1 / 2) 1, max (p.2 / 2) 1))
      ((w, h) :: mipJobDims w h) := by
  intro w
  induction w using Nat.strong_induction_on with
  | _ w ih =>
    intro h
    rw [mipJobDims_eq]
    by_cases hc : w > 1 ∧ h > 1
    · rw [if_pos hc]
      refine List.Chain'.cons rfl ?_
      exact ih (max (w / 2) 1) (by simp [Nat.max_def]; split <;> omega) (max (h / 2) 1)
    · simp [hc]

/-- The last generated mip level has at least one dimension equal to 1
(not necessarily both: the loop guard is a conjunction). -/
theorem mipChain_last : ∀ w h : Nat, 1 ≤ w → 1 ≤ h →
    ∃ l, ((w, h) :: mipJobDims w h).getLast? = some l ∧ (l.1 = 1 ∨ l.2 = 1) := by
  intro w
  induction w using Nat.strong_induction_on with
  | _ w ih =>
    intro h hw hh
    rw [mipJobDims_eq]
    by_cases hc : w > 1 ∧ h > 1
    · rw [if_pos hc]
      obtain ⟨l, hl, hl1⟩ := ih (max (w / 2) 1) (by simp [Nat.max_def]; split <;> omega)
        (max (h / 2) 1) (le_max_right _ _) (le_max_right _ _)
      exact ⟨l, by rw [List.getLast?_cons_cons]; exact hl, hl1⟩
    · refine ⟨(w, h), ?_, by omega⟩
      simp [hc]

/-- Every mip level before the last has both dimensions strictly above 1. -/
theorem mipChain_dropLast : ∀ w h : Nat,
    ∀ p ∈ ((w, h) :: mipJobDims w h).dropLast, 1 < p.1 ∧ 1 < p.2 := by
  intro w
  induction w using Nat.strong_induction_on with
  | _ w ih =>
    intro h p hp
    rw [mipJobDims_eq] at hp
    by_cases hc : w > 1 ∧ h > 1
    · rw [if_pos hc] at hp
      rw [List.dropLast_cons₂] at hp
      rcases List.mem_cons.mp hp with rfl | hp
      · exact hc
      · exact ih (max (w / 2) 1) (by simp [Nat.max_def]; split <;> omega) (max (h / 2) 1) p hp
    · simp [hc] at hp

/-- Concrete evaluation: the chain generated for a 513×300 base. -/
theorem mipChainDims_513_300 :
    mipChainDims 513 300 =
      [(513, 300), (256, 150), (128, 75), (64, 37), (32, 18),
       (16, 9), (8, 4), (4, 2), (2, 1)] := by
  unfold mipChainDims
  repeat (rw [mipJobDims_eq]; norm_num)

/-- Concrete evaluation: the scaling jobs generated for a 4×4 base. -/
theorem mipJobDims_4_4 : mipJobDims 4 4 = [(2, 2), (1, 1)] := by
  repeat (rw [mipJobDims_eq]; norm_num)

/-- The scaling jobs of the mipmapped fixture load: the decoded 4×4
bitmap is neither rescaled (native size requested) nor converted
(already 32 bpp), so the loop starts from 4×4. -/
theorem loadJobs_envMip : loadJobs envMip texMip = [(2, 2), (1, 1)] := by
  rw [show loadJobs envMip texMip = mipJobDims 4 4 from rfl, mipJobDims_4_4]

/-! ### Claim theorems -/

/-- C1, counterexample: the mip chain for a 513×300 base has 9 levels and
ends at 2×1, not 10 levels ending at 1×1 as claimed — the `while` guard
`width > 1 && height > 1` stops as soon as either dimension reaches 1. -/
theorem C1_counterexample :
    (mipChainDims 513 300).length = 9 ∧
    (mipChainDims 513 300).getLast? = some (2, 1) ∧
    ¬ ((mipChainDims 513 300).length = 10 ∧
       (mipChainDims 513 300).getLast? = some (1, 1)) := by
  rw [mipChainDims_513_300]
  refine ⟨rfl, rfl, ?_⟩
  rintro ⟨h, -⟩
  simp at h

/-- C1 (amended): for every base (W,H) with W,H ≥ 1, consecutive levels
satisfy `w_i = max(w_{i-1}/2, 1)` and `h_i = max(h_{i-1}/2, 1)`; the
chain terminates exactly when `w_i = 1` OR `h_i = 1` (every non-last
level has both dimensions above 1, the last level has at least one
dimension equal to 1); a 513×300 base yields exactly the 9 levels
513×300 … 2×1. -/
theorem C1_mip_chain_amended (W H : Nat) (hW : 1 ≤ W) (hH : 1 ≤ H) :
    List.Chain' (fun p q => q = (max (p.1 / 2) 1, max (p.2 / 2) 1)) (mipChainDims W H) ∧
    (∀ p ∈ (mipChainDims W H).dropLast, 1 < p.1 ∧ 1 < p.2) ∧
    (∃ l, (mipChainDims W H).getLast? = some l ∧ (l.1 = 1 ∨ l.2 = 1)) ∧
    mipChainDims 513 300 =
      [(513, 300), (256, 150), (128, 75), (64, 37), (32, 18),
       (16, 9), (8, 4), (4, 2), (2, 1)] :=
  ⟨mipChain_chain' W H, mipChain_dropLast W H, mipChain_last W H hW hH,
   mipChainDims_513_300⟩

/-- Witness for C1 (amended) at the concrete base 513×300. -/
theorem C1_mip_chain_amended_witness :
    1 ≤ 513 ∧ 1 ≤ 300 ∧
    (List.Chain' (fun p q => q = (max (p.1 / 2) 1, max (p.2 / 2) 1))
        (mipChainDims 513 300) ∧
      (∀ p ∈ (mipChainDims 513 300).dropLast, 1 < p.1 ∧ 1 < p.2) ∧
      (∃ l, (mipChainDims 513 300).getLast? = some l ∧ (l.1 = 1 ∨ l.2 = 1)) ∧
      mipChainDims 513 300 =
        [(513, 300), (256, 150), (128, 75), (64, 37), (32, 18),
         (16, 9), (8, 4), (4, 2), (2, 1)]) :=
  ⟨by norm_num, by norm_num, C1_mip_chain_amended 513 300 (by norm_num) (by norm_num)⟩

/-- C2: the intermediate-handle release claim fails on the code.  For a
file decoding to a 24-bpp bitmap with no caller rescale, the decoder
hands out the original handle (`hOriginal`, which `bitmapScaled` also
aliases) and the converted handle (`hConverted = bitmap32`); the cleanup
unloads only `bitmap32`, because the guard `if (texInfo.bpp != 32)` at
line 151 reads `texInfo.bpp` after line 127 already forced it to 32, so
the original handle is never released — contradicting the code's own
comment "unload the scaled bitmap only if it was converted". -/
theorem C2_handle_leak :
    (Load env24 demoTex).allocated = [hOriginal, hConverted] ∧
    (Load env24 demoTex).bitmap32Id = hConverted ∧
    (Load env24 demoTex).unloads = [hConverted] ∧
    hOriginal ∉ (Load env24 demoTex).unloads ∧
    (Load env24 demoTex).tex.bpp = 32 ∧
    (Load env24 demoTex).ret = true := by
  refine ⟨rfl, rfl, rfl, ?_, rfl, rfl⟩
  intro h
  rw [show (Load env24 demoTex).unloads = [hConverted] from rfl] at h
  simp [hOriginal, hConverted] at h

/-- C3, counterexample: an environment whose content probe resolves a
format (`fmt 7`) that does not support reading; `Load` never checks
readability on this path and completes successfully, contradicting the
claim that it must fail. -/
theorem C3_counterexample :
    envNoRead.fileTypeFromContent ≠ FIF.FIF_UNKNOWN ∧
    FIFSupportsReading envNoRead envNoRead.fileTypeFromContent = false ∧
    (Load envNoRead demoTex).ret = true ∧
    (Load envNoRead demoTex).tex.loadState = LoadState.Completed := by
  refine ⟨?_, rfl, rfl, rfl⟩
  simp [envNoRead, demoEnv]

/-- C3 (amended): the supports-reading check runs only in the fallback
branch.  When the content probe returns Unknown and the extension-derived
format does not support reading, `Load` fails; when the content probe
resolves any format, `Load` proceeds (and completes) regardless of
whether that format supports reading. -/
theorem C3_format_check_amended (env : LoadEnv) (tex : TextureInfo)
    (hv : ValidateFilePath env = true) (he : env.isEngineTextureFile = false) :
    (env.fileTypeFromContent = FIF.FIF_UNKNOWN →
      FIFSupportsReading env env.fifFromFilename = false →
      (Load env tex).ret = false ∧ (Load env tex).tex.loadState = LoadState.Failed) ∧
    (env.fileTypeFromContent ≠ FIF.FIF_UNKNOWN →
      (Load env tex).ret = true ∧ (Load env tex).tex.loadState = LoadState.Completed) := by
  constructor
  · intro h1 h2
    simp [Load, hv, he, h1, h2]
  · intro h1
    simp [Load, hv, he, h1]

/-- Witness for C3 (amended) at the baseline environment. -/
theorem C3_format_check_amended_witness :
    ValidateFilePath demoEnv = true ∧ demoEnv.isEngineTextureFile = false ∧
    ((demoEnv.fileTypeFromContent = FIF.FIF_UNKNOWN →
        FIFSupportsReading demoEnv demoEnv.fifFromFilename = false →
        (Load demoEnv demoTex).ret = false ∧
        (Load demoEnv demoTex).tex.loadState = LoadState.Failed) ∧
      (demoEnv.fileTypeFromContent ≠ FIF.FIF_UNKNOWN →
        (Load demoEnv demoTex).ret = true ∧
        (Load demoEnv demoTex).tex.loadState = LoadState.Completed)) :=
  ⟨rfl, rfl, C3_format_check_amended demoEnv demoTex rfl rfl⟩

/-- C4, counterexample: native size is 2×2 and the caller requests 5×2 —
the width differs but the height matches, and no rescale happens, because
`dimensionMismatch` requires BOTH dimensions to differ. -/
theorem C4_counterexample :
    (5 : Nat) ≠ 0 ∧ (2 : Nat) ≠ 0 ∧
    demoEnv.decodedBitmap.width ≠ 5 ∧ demoEnv.decodedBitmap.height = 2 ∧
    (Load demoEnv { demoTex with width := 5, height := 2 }).didScale = false := by
  refine ⟨?_, ?_, ?_, rfl, rfl⟩ <;> simp [demoEnv, demoBitmap32]

/-- C4 (amended): on a load that reaches decoding, the bitmap is rescaled
iff the caller requested explicit dimensions (both nonzero) and BOTH the
requested width and the requested height differ from the decoded native
values; a request where exactly one dimension differs does not rescale. -/
theorem C4_rescale_iff_amended (env : LoadEnv) (tex : TextureInfo)
    (hv : ValidateFilePath env = true) (he : env.isEngineTextureFile = false)
    (hf : env.fileTypeFromContent ≠ FIF.FIF_UNKNOWN) :
    (Load env tex).didScale = true ↔
      (tex.width ≠ 0 ∧ tex.height ≠ 0) ∧
      (env.decodedBitmap.width ≠ tex.width ∧ env.decodedBitmap.height ≠ tex.height) := by
  simp [Load, hv, he, hf, loadScaleCond]

/-- Witness for C4 (amended): a request of 5×7 on a 2×2 native bitmap. -/
theorem C4_rescale_iff_amended_witness :
    ValidateFilePath demoEnv = true ∧ demoEnv.isEngineTextureFile = false ∧
    demoEnv.fileTypeFromContent ≠ FIF.FIF_UNKNOWN ∧
    ((Load demoEnv { demoTex with width := 5, height := 7 }).didScale = true ↔
      (({ demoTex with width := 5, height := 7 } : TextureInfo).width ≠ 0 ∧
        ({ demoTex with width := 5, height := 7 } : TextureInfo).height ≠ 0) ∧
      (demoEnv.decodedBitmap.width ≠
          ({ demoTex with width := 5, height := 7 } : TextureInfo).width ∧
        demoEnv.decodedBitmap.height ≠
          ({ demoTex with width := 5, height := 7 } : TextureInfo).height)) :=
  ⟨rfl, rfl, by simp [demoEnv],
   C4_rescale_iff_amended demoEnv { demoTex with width := 5, height := 7 }
     rfl rfl (by simp [demoEnv])⟩

/-- C5, counterexample: a source decoded at 8 bpp ends the load with
`channelCount = 4`, not 1 — `Load` calls `ComputeChannelCount` with
`texInfo.bpp` after the line-127 hack has set it to 32. -/
theorem C5_counterexample :
    env8.decodedBitmap.bpp = 8 ∧
    (Load env8 demoTex).tex.channels = 4 ∧
    (Load env8 demoTex).tex.channels ≠ 1 := by
  refine ⟨rfl, rfl, ?_⟩
  intro h
  rw [show (Load env8 demoTex).tex.channels = 4 from rfl] at h
  simp at h

/-- C5 (amended): `ComputeChannelCount` itself maps 8→1, 24→3, 32→4,
other depths→0, and 0 for any non-standard raster; but `Load` invokes it
with the normalized bpp of 32, so the stored `channelCount` is 4 whenever
the final 32-bpp bitmap is a standard raster and 0 otherwise, regardless
of the source depth. -/
theorem C5_channel_count_amended (env : LoadEnv) (tex : TextureInfo)
    (hv : ValidateFilePath env = true) (he : env.isEngineTextureFile = false)
    (hf : env.fileTypeFromContent ≠ FIF.FIF_UNKNOWN) :
    (∀ bm : Bitmap,
      (bm.imageType ≠ FreeImageType.FIT_BITMAP → ∀ bpp, ComputeChannelCount bm bpp = 0) ∧
      (bm.imageType = FreeImageType.FIT_BITMAP →
        ComputeChannelCount bm 8 = 1 ∧ ComputeChannelCount bm 24 = 3 ∧
        ComputeChannelCount bm 32 = 4 ∧
        ∀ bpp, bpp ≠ 8 → bpp ≠ 24 → bpp ≠ 32 → ComputeChannelCount bm bpp = 0)) ∧
    (Load env tex).tex.channels =
      (if (bitmap32Of env tex.width tex.height).imageType = FreeImageType.FIT_BITMAP
       then 4 else 0) := by
  constructor
  · intro bm
    constructor
    · intro ht bpp
      simp [ComputeChannelCount, ht]
    · intro ht
      refine ⟨by simp [ComputeChannelCount, ht], by simp [ComputeChannelCount, ht],
        by simp [ComputeChannelCount, ht], ?_⟩
      intro bpp h8 h24 h32
      simp [ComputeChannelCount, ht, h8, h24, h32]
  · by_cases hm : tex.usingMipmaps = true
    · simp [Load, hv, he, hf, hm, ComputeChannelCount, GenerateMipmapsFromFIBITMAP]
    · simp [Load, hv, he, hf, hm, ComputeChannelCount]

/-- Witness for C5 (amended) at the 8-bpp environment. -/
theorem C5_channel_count_amended_witness :
    ValidateFilePath env8 = true ∧ env8.isEngineTextureFile = false ∧
    env8.fileTypeFromContent ≠ FIF.FIF_UNKNOWN ∧
    ((∀ bm : Bitmap,
        (bm.imageType ≠ FreeImageType.FIT_BITMAP → ∀ bpp, ComputeChannelCount bm bpp = 0) ∧
        (bm.imageType = FreeImageType.FIT_BITMAP →
          ComputeChannelCount bm 8 = 1 ∧ ComputeChannelCount bm 24 = 3 ∧
          ComputeChannelCount bm 32 = 4 ∧
          ∀ bpp, bpp ≠ 8 → bpp ≠ 24 → bpp ≠ 32 → ComputeChannelCount bm bpp = 0)) ∧
      (Load env8 demoTex).tex.channels =
        (if (bitmap32Of env8 demoTex.width demoTex.height).imageType =
            FreeImageType.FIT_BITMAP then 4 else 0)) :=
  ⟨rfl, rfl, by simp [env8, demoEnv],
   C5_channel_count_amended env8 demoTex rfl rfl (by simp [env8, demoEnv])⟩

/-- C6: every `Load` call writes `Loading` first and exactly one terminal
state last: the state-write trace is `[Loading, terminal]`, the terminal
state is `Completed` iff `Load` returns true and `Failed` iff it returns
false, and nothing is written after the terminal assignment. -/
theorem C6_load_state (env : LoadEnv) (tex : TextureInfo) :
    (Load env tex).stateTrace = [LoadState.Loading, (Load env tex).tex.loadState] ∧
    ((Load env tex).tex.loadState = LoadState.Completed ∨
      (Load env tex).tex.loadState = LoadState.Failed) ∧
    ((Load env tex).ret = true ↔ (Load env tex).tex.loadState = LoadState.Completed) ∧
    ((Load env tex).ret = false ↔ (Load env tex).tex.loadState = LoadState.Failed) := by
  by_cases h1 : ValidateFilePath env = true
  · by_cases h2 : env.isEngineTextureFile = true
    · by_cases h3 : LoadEngineTexture env = true
      · simp [Load, h1, h2, h3]
      · simp [Load, h1, h2, h3]
    · by_cases h4 : env.fileTypeFromContent = FIF.FIF_UNKNOWN
      · by_cases h5 : FIFSupportsReading env env.fifFromFilename = true
        · have h6 : env.fifFromFilename ≠ FIF.FIF_UNKNOWN := by
            intro hx
            rw [hx] at h5
            simp [FIFSupportsReading] at h5
          simp [Load, h1, h2, h4, h5, h6]
        · simp [Load, h1, h2, h4, h5]
      · simp [Load, h1, h2, h4]
  · simp [Load, h1]

/-- C7: in a mipmapped load reaching the decode path, a mip level whose
rescale fails (NULL bitmap, width 0) is only logged: its slot in
`rgba_mimaps` is the empty buffer, its size is in the failure log, every
level whose extraction succeeds still gets its full buffer, and `Load`
still returns true with `Completed`. -/
theorem C7_mip_failure_nonfatal (env : LoadEnv) (tex : TextureInfo)
    (hv : ValidateFilePath env = true) (he : env.isEngineTextureFile = false)
    (hf : env.fileTypeFromContent ≠ FIF.FIF_UNKNOWN) (hm : tex.usingMipmaps = true)
    (j : Nat) (hj : j < (loadJobs env tex).length)
    (hfail : (loadMipBitmap env tex (loadJobs env tex)[j]).width = 0) :
    (Load env tex).ret = true ∧
    (Load env tex).tex.loadState = LoadState.Completed ∧
    (Load env tex).tex.rgba_mimaps.length =
      tex.rgba_mimaps.length + 1 + (loadJobs env tex).length ∧
    (loadJobs env tex)[j] ∈ (Load env tex).mipFailLogs ∧
    (Load env tex).tex.rgba_mimaps[tex.rgba_mimaps.length + 1 + j]? = some [] ∧
    (∀ i, (hi : i < (loadJobs env tex).length) →
      bytesppOf (loadMipBitmap env tex (loadJobs env tex)[i]) ≠ UINT_MAX →
      (Load env tex).tex.rgba_mimaps[tex.rgba_mimaps.length + 1 + i]? =
        some (extractedRGBA (loadMipBitmap env tex (loadJobs env tex)[i]))) := by
  have hB : ∀ job : Nat × Nat,
      env.rescale (bitmap32Of env tex.width tex.height) job.1 job.2 =
        loadMipBitmap env tex job := fun _ => rfl
  have hr : (Load env tex).tex.rgba_mimaps =
      tex.rgba_mimaps ++ ((FIBTIMAPToRGBA (bitmap32Of env tex.width tex.height) tex.rgba).2 ::
        (loadJobs env tex).map (fun job =>
          (RescaleFIBITMAP env (bitmap32Of env tex.width tex.height) job.1 job.2 []).2)) := by
    simp [Load, hv, he, hf, hm, GenerateMipmapsFromFIBITMAP, loadJobs, Function.comp_def]
  have hlogs : (Load env tex).mipFailLogs =
      ((loadJobs env tex).zip ((loadJobs env tex).map (fun job =>
          RescaleFIBITMAP env (bitmap32Of env tex.width tex.height) job.1 job.2 []))).filterMap
        (fun jr => if jr.2.1 = false then some jr.1 else none) := by
    simp [Load, hv, he, hf, hm, GenerateMipmapsFromFIBITMAP, loadJobs]
  have key : ∀ i, (hi : i < (loadJobs env tex).length) →
      (Load env tex).tex.rgba_mimaps[tex.rgba_mimaps.length + 1 + i]? =
        some ((RescaleFIBITMAP env (bitmap32Of env tex.width tex.height)
          ((loadJobs env tex)[i]).1 ((loadJobs env tex)[i]).2 []).2) := by
    intro i hi
    rw [hr]
    rw [List.getElem?_append_right (by omega)]
    have h1 : tex.rgba_mimaps.length + 1 + i - tex.rgba_mimaps.length = i + 1 := by omega
    rw [h1, List.getElem?_cons_succ]
    rw [List.getElem?_map]
    rw [List.getElem?_eq_getElem hi]
    simp
  have hbpj : bytesppOf (loadMipBitmap env tex (loadJobs env tex)[j]) = UINT_MAX := by
    simp [bytesppOf, hfail]
  refine ⟨by simp [Load, hv, he, hf, hm], by simp [Load, hv, he, hf, hm], ?_, ?_, ?_, ?_⟩
  · rw [hr]; simp; omega
  · rw [hlogs]
    refine List.mem_filterMap.mpr ⟨((loadJobs env tex)[j],
      RescaleFIBITMAP env (bitmap32Of env tex.width tex.height)
        ((loadJobs env tex)[j]).1 ((loadJobs env tex)[j]).2 []), ?_, ?_⟩
    · have hz : j < (((loadJobs env tex)).zip ((loadJobs env tex).map (fun job =>
          RescaleFIBITMAP env (bitmap32Of env tex.width tex.height) job.1 job.2 []))).length := by
        simp
        omega
      have := List.getElem_mem hz
      simpa [List.getElem_zip, List.getElem_map] using this
    · simp [RescaleFIBITMAP, FIBTIMAPToRGBA, hB, hbpj]
  · rw [key j hj]
    simp [RescaleFIBITMAP, FIBTIMAPToRGBA, hB, hbpj]
  · intro i hi hok
    rw [key i hi]
    simp [RescaleFIBITMAP, FIBTIMAPToRGBA, hB, hok]

/-- Witness for C7: the 4×4 mipmapped fixture whose rescale to 2×2 fails;
the load completes, logs (2,2), and stores an empty buffer at slot 1. -/
theorem C7_mip_failure_nonfatal_witness :
    ValidateFilePath envMip = true ∧ envMip.isEngineTextureFile = false ∧
    envMip.fileTypeFromContent ≠ FIF.FIF_UNKNOWN ∧ texMip.usingMipmaps = true ∧
    0 < (loadJobs envMip texMip).length ∧
    (loadMipBitmap envMip texMip (2, 2)).width = 0 ∧
    (Load envMip texMip).ret = true ∧
    (Load envMip texMip).tex.loadState = LoadState.Completed ∧
    (Load envMip texMip).tex.rgba_mimaps.length = 3 ∧
    (2, 2) ∈ (Load envMip texMip).mipFailLogs ∧
    (Load envMip texMip).tex.rgba_mimaps[1]? = some [] := by
  have hjobs := loadJobs_envMip
  have hj : 0 < (loadJobs envMip texMip).length := by
    rw [hjobs]
    norm_num
  have h0 : (loadJobs envMip texMip)[0] = (2, 2) := by
    simp [hjobs]
  have hfail : (loadMipBitmap envMip texMip (loadJobs envMip texMip)[0]).width = 0 := by
    rw [h0]
    rfl
  obtain ⟨h1, h2, h3, h4, h5, -⟩ :=
    C7_mip_failure_nonfatal envMip texMip rfl rfl (by simp [envMip, demoEnv]) rfl 0 hj hfail
  refine ⟨rfl, rfl, by simp [envMip, demoEnv], rfl, hj, by rw [← h0]; exact hfail,
    h1, h2, ?_, ?_, ?_⟩
  · rw [h3, hjobs]
    rfl
  · rw [← h0]
    exact h4
  · simpa [texMip, demoTex] using h5

/-- C8: `GrayscaleCheck` returns true iff every pixel of the RGBA buffer
satisfies R = G = B (alpha ignored), and returns true vacuously when
either dimension is 0. -/
theorem C8_grayscale_iff (rgba : List Nat) (w h : Nat) (hlen : w * h * 4 ≤ rgba.length) :
    (GrayscaleCheck rgba w h = true ↔
      ∀ i, i < h → ∀ j, j < w →
        rgba.getD ((i * w + j) * 4) 0 = rgba.getD ((i * w + j) * 4 + 1) 0 ∧
        rgba.getD ((i * w + j) * 4) 0 = rgba.getD ((i * w + j) * 4 + 2) 0) ∧
    ((w = 0 ∨ h = 0) → GrayscaleCheck rgba w h = true) := by
  constructor
  · unfold GrayscaleCheck
    simp only [decide_eq_true_eq]
    have hL : ((List.range h).flatMap (fun i => (List.range w).map (fun j => (i, j)))).length
        = h * w := by
      simp [List.length_flatMap, Function.comp_def]
    rw [Nat.mul_comm w h, ← hL, List.countP_eq_length]
    constructor
    · intro hall i hi j hj
      have := hall (i, j) (by
        simp only [List.mem_flatMap, List.mem_map, List.mem_range]
        exact ⟨i, hi, j, hj, rfl⟩)
      simpa using this
    · intro hall a ha
      simp only [List.mem_flatMap, List.mem_map, List.mem_range] at ha
      obtain ⟨i, hi, j, hj, rfl⟩ := ha
      simpa using hall i hi j hj
  · intro h0
    unfold GrayscaleCheck
    rcases h0 with rfl | rfl <;> simp

/-- Witness for C8: a 2×1 buffer with two gray pixels. -/
theorem C8_grayscale_iff_witness :
    2 * 1 * 4 ≤ ([5, 5, 5, 0, 7, 7, 7, 9] : List Nat).length ∧
    ((GrayscaleCheck [5, 5, 5, 0, 7, 7, 7, 9] 2 1 = true ↔
      ∀ i, i < 1 → ∀ j, j < 2 →
        ([5, 5, 5, 0, 7, 7, 7, 9] : List Nat).getD ((i * 2 + j) * 4) 0 =
          ([5, 5, 5, 0, 7, 7, 7, 9] : List Nat).getD ((i * 2 + j) * 4 + 1) 0 ∧
        ([5, 5, 5, 0, 7, 7, 7, 9] : List Nat).getD ((i * 2 + j) * 4) 0 =
          ([5, 5, 5, 0, 7, 7, 7, 9] : List Nat).getD ((i * 2 + j) * 4 + 2) 0) ∧
    ((2 = 0 ∨ 1 = 0) → GrayscaleCheck [5, 5, 5, 0, 7, 7, 7, 9] 2 1 = true)) :=
  ⟨by decide, C8_grayscale_iff [5, 5, 5, 0, 7, 7, 7, 9] 2 1 (by decide)⟩

/-- C9: `FIBTIMAPToRGBA` fails exactly when the bitmap's width is 0
(given a scanline byte count below the `unsigned` sentinel), appends
nothing on failure, and on success emits, row by row and pixel by pixel,
the bytes R, G, B, A with a per-pixel stride of `scanline_bytes / width`. -/
theorem C9_extract_contract (bm : Bitmap) (rgba : List Nat)
    (hs : bm.scanlineBytes < UINT_MAX) :
    ((FIBTIMAPToRGBA bm rgba).1 = false ↔ bm.width = 0) ∧
    (bm.width = 0 → (FIBTIMAPToRGBA bm rgba).2 = rgba) ∧
    (0 < bm.width →
      (FIBTIMAPToRGBA bm rgba).1 = true ∧
      (FIBTIMAPToRGBA bm rgba).2 = rgba ++ (List.range bm.height).flatMap (fun y =>
        (List.range bm.width).flatMap (fun x =>
          pixelRGBA bm (bm.scanlineBytes / bm.width) y x))) := by
  by_cases hw : bm.width = 0
  · refine ⟨by simp [FIBTIMAPToRGBA, bytesppOf, hw],
      by simp [FIBTIMAPToRGBA, bytesppOf, hw], ?_⟩
    intro h0
    omega
  · have hbp : bytesppOf bm ≠ UINT_MAX := by
      unfold bytesppOf
      rw [if_pos hw]
      have : bm.scanlineBytes / bm.width ≤ bm.scanlineBytes := Nat.div_le_self _ _
      omega
    refine ⟨by simp [FIBTIMAPToRGBA, hbp, hw], by simp [hw], ?_⟩
    intro _
    constructor
    · simp [FIBTIMAPToRGBA, hbp]
    · have hbp2 : bm.scanlineBytes / bm.width ≠ UINT_MAX := by
        unfold bytesppOf at hbp
        rwa [if_pos hw] at hbp
      simp [FIBTIMAPToRGBA, extractedRGBA, bytesppOf, hw, hbp2]

/-- Witness for C9: a well-formed 2×1 bitmap with prior buffer `[7]`. -/
theorem C9_extract_contract_witness :
    (demoBitmap32 2 1).scanlineBytes < UINT_MAX ∧
    (((FIBTIMAPToRGBA (demoBitmap32 2 1) [7]).1 = false ↔ (demoBitmap32 2 1).width = 0) ∧
      ((demoBitmap32 2 1).width = 0 → (FIBTIMAPToRGBA (demoBitmap32 2 1) [7]).2 = [7]) ∧
      (0 < (demoBitmap32 2 1).width →
        (FIBTIMAPToRGBA (demoBitmap32 2 1) [7]).1 = true ∧
        (FIBTIMAPToRGBA (demoBitmap32 2 1) [7]).2 =
          [7] ++ (List.range (demoBitmap32 2 1).height).flatMap (fun y =>
            (List.range (demoBitmap32 2 1).width).flatMap (fun x =>
              pixelRGBA (demoBitmap32 2 1)
                ((demoBitmap32 2 1).scanlineBytes / (demoBitmap32 2 1).width) y x)))) :=
  ⟨by decide, C9_extract_contract (demoBitmap32 2 1) [7] (by decide)⟩

/-- C10: on success `FIBTIMAPToRGBA` appends to the destination without
clearing it — the result is the prior contents followed by exactly
`width*height*4` freshly extracted bytes. -/
theorem C10_append_semantics (bm : Bitmap) (rgba : List Nat)
    (hok : (FIBTIMAPToRGBA bm rgba).1 = true) :
    (FIBTIMAPToRGBA bm rgba).2 = rgba ++ (FIBTIMAPToRGBA bm []).2 ∧
    (FIBTIMAPToRGBA bm []).2.length = bm.width * bm.height * 4 := by
  have hbp : bytesppOf bm ≠ UINT_MAX := by
    intro h
    simp [FIBTIMAPToRGBA, h] at hok
  constructor
  · simp [FIBTIMAPToRGBA, hbp]
  · simp [FIBTIMAPToRGBA, hbp, extractedRGBA_length]

/-- Witness for C10: a 1×1 bitmap with a nonempty prior buffer `[7]`. -/
theorem C10_append_semantics_witness :
    (FIBTIMAPToRGBA (demoBitmap32 1 1) [7]).1 = true ∧
    ((FIBTIMAPToRGBA (demoBitmap32 1 1) [7]).2 =
        [7] ++ (FIBTIMAPToRGBA (demoBitmap32 1 1) []).2 ∧
      (FIBTIMAPToRGBA (demoBitmap32 1 1) []).2.length = 1 * 1 * 4) := by
  have hok : (FIBTIMAPToRGBA (demoBitmap32 1 1) [7]).1 = true := by decide
  have := C10_append_semantics (demoBitmap32 1 1) [7] hok
  exact ⟨hok, by rw [show (demoBitmap32 1 1).width * (demoBitmap32 1 1).height * 4
      = 1 * 1 * 4 from rfl] at this; exact this⟩

end Directus
